import Mathlib

/-!
Shallow embedding of `src/script/web_text_processor.py` (the single source
file of the repository) and verification of its specification claims.

Modelling conventions:
- Python dict envelopes are association lists `List (String × JVal)` in
  insertion order, so that a missing key and a key mapped to `None` are
  distinguishable, exactly as in the emitted JSON.
- Exceptions are `Except String`: raising is `Except.error msg`, and a
  `try/except Exception as e` block is a `match` on the `Except` value.
- The two external collaborators (the Promptlayer template store and the
  OpenAI chat-completion endpoint) are oracles in an `Effects` record;
  every outbound call is counted in a `NetLog` so that "no network call"
  and "exactly one round trip" are statable.
- A prompt template is a string with exactly one `\x7btext\x7d` slot (spec §3);
  it is represented by the text before and after the slot, and
  `Template.format` is Python `.format(text=...)` on such a string.
- Python `str.strip()` is `pyStrip` (drop whitespace from both ends).
-/

/-- JSON-ish values appearing in the output envelope. -/
inductive JVal where
  | null : JVal
  | bool (b : Bool) : JVal
  | str (s : String) : JVal
deriving DecidableEq, Repr

/-- The envelope is a Python dict in insertion order. -/
abbrev Envelope := List (String × JVal)

/-- Dict/key lookup: `none` means the key is absent from the dict. -/
def getField : Envelope → String → Option JVal
  | [], _ => none
  | (k, v) :: rest, key => if k = key then some v else getField rest key

/-- Counts of outbound network calls made during a computation. -/
structure NetLog where
  fetchCalls : Nat
  genCalls : Nat
deriving DecidableEq, Repr

/-- A chat message, as in the `messages` list of the API request. -/
structure ChatMessage where
  role : String
  content : String
deriving DecidableEq, Repr

/-- The request built by `_call_openai_api` (lines 110-130). `pl_tags` is
`none` when the keyword argument is not passed at all. Temperature 0.7 is
recorded in tenths to stay in exact arithmetic. -/
structure ChatRequest where
  model : String
  messages : List ChatMessage
  max_tokens : Nat
  temperature_tenths : Nat
  pl_tags : Option (List String)
deriving DecidableEq, Repr

/-- One completion choice of the downstream response. -/
structure Choice where
  message : ChatMessage
deriving DecidableEq, Repr

/-- A successful downstream response: a list of completion choices. -/
structure ChatResponse where
  choices : List Choice
deriving DecidableEq, Repr

/-- A prompt template: the text before and after its single `\x7btext\x7d`
substitution slot. -/
structure Template where
  pre : String
  post : String
deriving DecidableEq, Repr

/-- Python `template.format(text=text)` for a template with exactly one
`\x7btext\x7d` slot: substitute the input verbatim. -/
def Template.format (t : Template) (text : String) : String :=
  t.pre ++ text ++ t.post

/-- The two external services, as oracles. `remoteFetch` models
`promptlayer.prompts.get` followed by the `["prompt_template"]` access:
`Except.error` is a raised exception, `Except.ok none` is a response without
a `prompt_template` key (the `KeyError` is raised inside the same `try`),
`Except.ok (some t)` is a fetched template. `genCall` models
`client.chat.completions.create`. -/
structure Effects where
  remoteFetch : String → Except String (Option Template)
  genCall : ChatRequest → Except String ChatResponse

/-- The process environment as seen by `os.getenv`. -/
structure Env where
  openai_api_key : Option String
  promptlayer_api_key : Option String

/-- Python truthiness of an `os.getenv` result: `None` and `""` are falsy. -/
def getenvTruthy : Option String → Bool
  | none => false
  | some s => !s.isEmpty

/-- Processor state after `__init__`: the only data that varies is the
`use_promptlayer` flag (line 35); `tasks` and `fallback_prompts` are the
same fixed tables on every instance. -/
structure WebTextProcessor where
  use_promptlayer : Bool

/-- `__init__` (lines 27-48): raise `ValueError` when `OPENAI_API_KEY` is
missing or empty, otherwise set `use_promptlayer` from `PROMPTLAYER_API_KEY`. -/
def WebTextProcessor.init (env : Env) : Except String WebTextProcessor :=
  if getenvTruthy env.openai_api_key = false then
    Except.error "OPENAI_API_KEY not found in environment variables."
  else
    Except.ok { use_promptlayer := getenvTruthy env.promptlayer_api_key }

/-- The `summarize` fallback template (lines 52-58), split at its slot. -/
def summarizeTemplate : Template :=
  { pre := "Please provide a concise summary of the following text. Focus on the main ideas and key information.\nKeep the summary clear and informative, approximately 2-3 sentences.\n\nText to summarize:\n",
    post := "\n\nSummary:" }

/-- The `extract_key_points` fallback template (lines 59-65). -/
def extractKeyPointsTemplate : Template :=
  { pre := "Please extract the key points from the following text. Present them as a bulleted list.\nFocus on the most important information and main arguments.\n\nText to analyze:\n",
    post := "\n\nKey Points:" }

/-- The `classify` fallback template (lines 66-72). -/
def classifyTemplate : Template :=
  { pre := "Please classify the following text into one of these categories: Opinion, Fact, or News.\nProvide the classification and a brief explanation of why it fits that category.\n\nText to classify:\n",
    post := "\n\nClassification:" }

/-- `self.fallback_prompts` (lines 51-73) as a key lookup. -/
def fallback_prompts : String → Option Template := fun task =>
  if task = "summarize" then some summarizeTemplate
  else if task = "extract_key_points" then some extractKeyPointsTemplate
  else if task = "classify" then some classifyTemplate
  else none

/-- The keys of `self.tasks` in insertion order (lines 44-48). -/
def taskKeys : List String := ["summarize", "extract_key_points", "classify"]

/-- A single-quote character, for rendering Python `repr` strings. -/
def singleQuote : String := String.singleton (Char.ofNat 39)

/-- Python `repr` of a plain string: the string in single quotes. -/
def pyRepr (s : String) : String := singleQuote ++ s ++ singleQuote

/-- `str(list(self.tasks.keys()))` as interpolated into the invalid-task
error message (line 142). -/
def available_tasks_repr : String :=
  "[" ++ pyRepr "summarize" ++ ", " ++ pyRepr "extract_key_points" ++ ", "
    ++ pyRepr "classify" ++ "]"

/-- `str(KeyError(task))`: the missing key in single quotes. -/
def keyErrorMessage (task : String) : String := pyRepr task

/-- `get_prompt_template` (lines 75-88). With Promptlayer configured it
attempts one remote fetch; any failure of the fetch (exception or missing
`prompt_template` key) falls back to the local template table. Without
Promptlayer it reads the local table directly. A missing local key is a
`KeyError` escaping the function. -/
def get_prompt_template (p : WebTextProcessor) (eff : Effects)
    (task text : String) : Except String String × NetLog :=
  if p.use_promptlayer then
    match eff.remoteFetch ("text_processor_" ++ task) with
    | Except.ok (some template) => (Except.ok (template.format text), ⟨1, 0⟩)
    | Except.ok none =>
        match fallback_prompts task with
        | some template => (Except.ok (template.format text), ⟨1, 0⟩)
        | none => (Except.error (keyErrorMessage task), ⟨1, 0⟩)
    | Except.error _ =>
        match fallback_prompts task with
        | some template => (Except.ok (template.format text), ⟨1, 0⟩)
        | none => (Except.error (keyErrorMessage task), ⟨1, 0⟩)
  else
    match fallback_prompts task with
    | some template => (Except.ok (template.format text), ⟨0, 0⟩)
    | none => (Except.error (keyErrorMessage task), ⟨0, 0⟩)

/-- Python whitespace characters recognised by `str.strip()` (ASCII part). -/
def pyIsSpace (c : Char) : Bool :=
  c == ' ' || c == Char.ofNat 9 || c == Char.ofNat 10 || c == Char.ofNat 13
    || c == Char.ofNat 11 || c == Char.ofNat 12

/-- Python `s.strip()`: drop whitespace from both ends. -/
def pyStrip (s : String) : String :=
  ⟨((s.data.dropWhile pyIsSpace).reverse.dropWhile pyIsSpace).reverse⟩

/-- The fixed system instruction of every generation request (line 113). -/
def systemInstruction : String :=
  "You are a helpful assistant that provides clear, concise responses."

/-- The request `_call_openai_api` issues (lines 108-130): tags are attached
exactly when `use_promptlayer` holds and a truthy `prompt_name` was passed. -/
def builtRequest (p : WebTextProcessor) (prompt : String)
    (prompt_name : Option String) : ChatRequest :=
  let tags : Option (List String) :=
    match prompt_name with
    | some name =>
        if p.use_promptlayer && !name.isEmpty then
          some [name, "text_processor"]
        else none
    | none => none
  { model := "gpt-4",
    messages := [{ role := "system", content := systemInstruction },
                 { role := "user", content := prompt }],
    max_tokens := 500,
    temperature_tenths := 7,
    pl_tags := tags }

/-- `_call_openai_api` (lines 105-135): one request; on success return the
content of the first choice, stripped (an empty `choices` list is an `IndexError`
caught by the same handler); any exception is re-raised as
`"OpenAI API Error: " ++` the original message. -/
def call_openai_api (p : WebTextProcessor) (eff : Effects) (prompt : String)
    (prompt_name : Option String) : Except String String × NetLog :=
  match eff.genCall (builtRequest p prompt prompt_name) with
  | Except.error e => (Except.error ("OpenAI API Error: " ++ e), ⟨0, 1⟩)
  | Except.ok response =>
      match response.choices with
      | [] => (Except.error ("OpenAI API Error: list index out of range"), ⟨0, 1⟩)
      | choice :: _ => (Except.ok (pyStrip choice.message.content), ⟨0, 1⟩)

/-- Sequencing of two fallible, network-logging steps: errors short-circuit,
call counts add up. -/
def andThenNet (a : Except String String × NetLog)
    (f : String → Except String String × NetLog) :
    Except String String × NetLog :=
  match a with
  | (Except.error e, nl) => (Except.error e, nl)
  | (Except.ok v, nl) =>
      let (r, nl2) := f v
      (r, ⟨nl.fetchCalls + nl2.fetchCalls, nl.genCalls + nl2.genCalls⟩)

/-- `summarize` (lines 90-93). -/
def summarize (p : WebTextProcessor) (eff : Effects) (text : String) :
    Except String String × NetLog :=
  andThenNet (get_prompt_template p eff "summarize" text)
    (fun prompt => call_openai_api p eff prompt (some "text_processor_summarize"))

/-- `extract_key_points` (lines 95-98). -/
def extract_key_points (p : WebTextProcessor) (eff : Effects) (text : String) :
    Except String String × NetLog :=
  andThenNet (get_prompt_template p eff "extract_key_points" text)
    (fun prompt => call_openai_api p eff prompt (some "text_processor_extract_key_points"))

/-- `classify` (lines 100-103). -/
def classify (p : WebTextProcessor) (eff : Effects) (text : String) :
    Except String String × NetLog :=
  andThenNet (get_prompt_template p eff "classify" text)
    (fun prompt => call_openai_api p eff prompt (some "text_processor_classify"))

/-- `self.tasks` (lines 44-48): the dispatch dict. -/
def tasks (p : WebTextProcessor) (eff : Effects) :
    String → Option (String → Except String String × NetLog) := fun task =>
  if task = "summarize" then some (summarize p eff)
  else if task = "extract_key_points" then some (extract_key_points p eff)
  else if task = "classify" then some (classify p eff)
  else none

/-- `process_text` (lines 137-166): reject unknown tasks with an inline
error envelope, otherwise run the task and wrap success or any exception
into the envelope. Field order matches the source dict literals. -/
def process_text (p : WebTextProcessor) (eff : Effects)
    (text task : String) : Envelope × NetLog :=
  match tasks p eff task with
  | none =>
      ([("success", JVal.bool false),
        ("error", JVal.str ("Invalid task: " ++ task ++ ". Available tasks: "
          ++ available_tasks_repr)),
        ("task", JVal.str task),
        ("input", JVal.str text),
        ("output", JVal.null)], ⟨0, 0⟩)
  | some task_function =>
      match task_function text with
      | (Except.ok output, nl) =>
          ([("success", JVal.bool true),
            ("task", JVal.str task),
            ("input", JVal.str text),
            ("output", JVal.str output)], nl)
      | (Except.error e, nl) =>
          ([("success", JVal.bool false),
            ("error", JVal.str e),
            ("task", JVal.str task),
            ("input", JVal.str text),
            ("output", JVal.null)], nl)

/-- Truthiness of `result["success"]` as tested by `main` (line 189). -/
def envelopeSuccess (e : Envelope) : Bool :=
  match getField e "success" with
  | some (JVal.bool b) => b
  | _ => false

/-- What one program run produces: the JSON envelope printed to stdout, the
process exit code, and the network calls made. -/
structure MainResult where
  envelope : Envelope
  exitCode : Nat
  net : NetLog

/-- `main` (lines 169-200) after argument parsing: construct the processor
and process; if construction (or anything else) raises, emit the error
envelope and exit 1; otherwise exit 0 exactly when `result["success"]` is
truthy. -/
def mainRun (env : Env) (eff : Effects) (args_task args_text : String) :
    MainResult :=
  match WebTextProcessor.init env with
  | Except.ok processor =>
      let (result, nl) := process_text processor eff args_text args_task
      { envelope := result,
        exitCode := if envelopeSuccess result then 0 else 1,
        net := nl }
  | Except.error e =>
      { envelope := [("success", JVal.bool false),
                     ("error", JVal.str e),
                     ("task", JVal.str args_task),
                     ("input", JVal.str args_text),
                     ("output", JVal.null)],
        exitCode := 1,
        net := ⟨0, 0⟩ }

/-- `sub` occurs contiguously inside `s`. -/
def containsSubstr (s sub : String) : Prop :=
  ∃ pre post : List Char, s.data = pre ++ sub.data ++ post

/-- An environment with no credentials at all. -/
def env0 : Env := { openai_api_key := none, promptlayer_api_key := none }

/-- An environment with only the OpenAI key. -/
def envOpenaiOnly : Env :=
  { openai_api_key := some "sk-test", promptlayer_api_key := none }

/-- Effects whose generation call succeeds with one padded choice. -/
def effGenOk : Effects :=
  { remoteFetch := fun _ => Except.error "unused",
    genCall := fun _ => Except.ok
      { choices := [{ message :=
          { role := "assistant", content := "  Fact. This is observable.  " } }] } }

/-- Effects whose generation call raises a transport error. -/
def effGenFail : Effects :=
  { remoteFetch := fun _ => Except.error "unused",
    genCall := fun _ => Except.error "boom" }

/-- Effects whose remote template fetch raises and whose generation call
succeeds. -/
def effFetchFail : Effects :=
  { remoteFetch := fun _ => Except.error "connection refused",
    genCall := fun _ => Except.ok
      { choices := [{ message :=
          { role := "assistant", content := "ok" } }] } }

/-! ## Helper lemmas -/

/-- The dispatch dict `tasks` has exactly the keys of `taskKeys`. -/
theorem tasks_eq_none_of_not_mem (p : WebTextProcessor) (eff : Effects)
    (t : String) (h : t ∉ taskKeys) : tasks p eff t = none := by
  simp only [taskKeys, List.mem_cons, List.not_mem_nil, or_false] at h
  push_neg at h
  obtain ⟨h1, h2, h3⟩ := h
  simp [tasks, h1, h2, h3]

/-- Every run of `process_text` produces one of exactly two envelope shapes:
the four-field success dict or the five-field failure dict. -/
theorem process_text_shape (p : WebTextProcessor) (eff : Effects)
    (s t : String) :
    (∃ out nl, process_text p eff s t =
      ([("success", JVal.bool true), ("task", JVal.str t),
        ("input", JVal.str s), ("output", JVal.str out)], nl)) ∨
    (∃ msg nl, process_text p eff s t =
      ([("success", JVal.bool false), ("error", JVal.str msg),
        ("task", JVal.str t), ("input", JVal.str s),
        ("output", JVal.null)], nl)) := by
  unfold process_text
  cases htasks : tasks p eff t with
  | none => right; exact ⟨_, _, rfl⟩
  | some f =>
      rcases hf : f s with ⟨res, nl⟩
      cases res with
      | ok out => left; exact ⟨out, nl, by dsimp only; rw [hf]⟩
      | error e => right; exact ⟨e, nl, by dsimp only; rw [hf]⟩

/-- A middle factor of a three-way append is a substring. -/
theorem containsSubstr_middle (a b c : String) : containsSubstr (a ++ b ++ c) b :=
  ⟨a.data, c.data, by simp [String.data_append]⟩

/-! ## Claim theorems -/

/-- C1 counterexample: on the success path the envelope of `process_text`
has no `error` key at all (four fields only), refuting "fully populated
with all five fields": here `summarize` on input `"hello"` succeeds and
the returned dict lacks the `error` key while `success` is true. -/
theorem success_envelope_omits_error_field :
    getField (process_text { use_promptlayer := false } effGenOk
      "hello" "summarize").1 "error" = none ∧
    getField (process_text { use_promptlayer := false } effGenOk
      "hello" "summarize").1 "success" = some (JVal.bool true) := by
  decide

/-- C1 (amended): for every task and input, the envelope always carries
`success`, `task`, `input` and `output`; when `success` is true, `output`
is a string and the `error` key is absent (not null); when `success` is
false, `output` is null and `error` is a string — `output` and `error` are
never both populated. -/
theorem envelope_output_error_exclusive (p : WebTextProcessor)
    (eff : Effects) (s t : String) :
    getField (process_text p eff s t).1 "task" = some (JVal.str t) ∧
    getField (process_text p eff s t).1 "input" = some (JVal.str s) ∧
    ((getField (process_text p eff s t).1 "success" = some (JVal.bool true) ∧
      (∃ out, getField (process_text p eff s t).1 "output" = some (JVal.str out)) ∧
      getField (process_text p eff s t).1 "error" = none) ∨
     (getField (process_text p eff s t).1 "success" = some (JVal.bool false) ∧
      getField (process_text p eff s t).1 "output" = some JVal.null ∧
      (∃ msg, getField (process_text p eff s t).1 "error" = some (JVal.str msg)))) := by
  rcases process_text_shape p eff s t with ⟨out, nl, hE⟩ | ⟨msg, nl, hE⟩
  · rw [hE]
    exact ⟨rfl, rfl, Or.inl ⟨rfl, ⟨out, rfl⟩, rfl⟩⟩
  · rw [hE]
    exact ⟨rfl, rfl, Or.inr ⟨rfl, rfl, ⟨msg, rfl⟩⟩⟩

/-- C2: an unrecognized task name is rejected immediately: `success=false`,
`output=null`, the error message contains the invalid name and all three
valid task names, and no network call of either kind is made. -/
theorem invalid_task_rejected (p : WebTextProcessor) (eff : Effects)
    (s t : String) (h : t ∉ taskKeys) :
    process_text p eff s t =
      ([("success", JVal.bool false),
        ("error", JVal.str ("Invalid task: " ++ t ++ ". Available tasks: "
          ++ available_tasks_repr)),
        ("task", JVal.str t), ("input", JVal.str s),
        ("output", JVal.null)], ⟨0, 0⟩) ∧
    containsSubstr ("Invalid task: " ++ t ++ ". Available tasks: "
      ++ available_tasks_repr) t ∧
    containsSubstr ("Invalid task: " ++ t ++ ". Available tasks: "
      ++ available_tasks_repr) "summarize" ∧
    containsSubstr ("Invalid task: " ++ t ++ ". Available tasks: "
      ++ available_tasks_repr) "extract_key_points" ∧
    containsSubstr ("Invalid task: " ++ t ++ ". Available tasks: "
      ++ available_tasks_repr) "classify" := by
  refine ⟨?_, ?_, ?_, ?_, ?_⟩
  · unfold process_text
    rw [tasks_eq_none_of_not_mem p eff t h]
  · exact ⟨("Invalid task: ").data,
      ((". Available tasks: " ++ available_tasks_repr)).data,
      by simp [String.data_append, List.append_assoc]⟩
  · exact ⟨("Invalid task: " ++ t ++ ". Available tasks: " ++ "["
        ++ singleQuote).data,
      ((singleQuote ++ ", " ++ pyRepr "extract_key_points" ++ ", "
        ++ pyRepr "classify" ++ "]")).data,
      by simp [available_tasks_repr, pyRepr, String.data_append,
        List.append_assoc]⟩
  · exact ⟨("Invalid task: " ++ t ++ ". Available tasks: " ++ "["
        ++ pyRepr "summarize" ++ ", " ++ singleQuote).data,
      ((singleQuote ++ ", " ++ pyRepr "classify" ++ "]")).data,
      by simp [available_tasks_repr, pyRepr, String.data_append,
        List.append_assoc]⟩
  · exact ⟨("Invalid task: " ++ t ++ ". Available tasks: " ++ "["
        ++ pyRepr "summarize" ++ ", " ++ pyRepr "extract_key_points" ++ ", "
        ++ singleQuote).data,
      ((singleQuote ++ "]")).data,
      by simp [available_tasks_repr, pyRepr, String.data_append,
        List.append_assoc]⟩

/-- C2 witness: the bogus task of spec §8 is rejected with the exact
message, all valid names inside it, and zero network calls. -/
theorem invalid_task_rejected_witness :
    "bogus_task" ∉ taskKeys ∧
    (process_text { use_promptlayer := false } effGenOk "some text"
      "bogus_task").2 = ⟨0, 0⟩ := by
  refine ⟨by decide, ?_⟩
  rw [(invalid_task_rejected { use_promptlayer := false } effGenOk
    "some text" "bogus_task" (by decide)).1]

/-- C3: `process_text` never raises: whatever the downstream behavior, the
result is a well-formed envelope (`success` true, or `success` false with a
string `error`), and every failure produced by the dispatched task —
template resolution, prompt building or generation — is converted into the
`success=false` envelope carrying exactly that error message. -/
theorem process_text_never_raises (p : WebTextProcessor) (eff : Effects)
    (s t : String) (f : String → Except String String × NetLog)
    (msg : String) (nl : NetLog)
    (htask : tasks p eff t = some f)
    (hfail : f s = (Except.error msg, nl)) :
    process_text p eff s t =
      ([("success", JVal.bool false), ("error", JVal.str msg),
        ("task", JVal.str t), ("input", JVal.str s),
        ("output", JVal.null)], nl) ∧
    (∀ (p2 : WebTextProcessor) (eff2 : Effects) (s2 t2 : String),
      getField (process_text p2 eff2 s2 t2).1 "success" = some (JVal.bool true) ∨
      (getField (process_text p2 eff2 s2 t2).1 "success" = some (JVal.bool false) ∧
       ∃ m, getField (process_text p2 eff2 s2 t2).1 "error" = some (JVal.str m))) := by
  constructor
  · unfold process_text
    rw [htask]
    dsimp only
    rw [hfail]
  · intro p2 eff2 s2 t2
    rcases process_text_shape p2 eff2 s2 t2 with ⟨out, nl2, hE⟩ | ⟨m, nl2, hE⟩
    · left; rw [hE]; rfl
    · right; rw [hE]; exact ⟨rfl, ⟨m, rfl⟩⟩

/-- C3 witness: with a generation service that raises `"boom"`, the
`summarize` task fails and `process_text` returns the failure envelope
carrying the wrapped message. -/
theorem process_text_never_raises_witness :
    process_text { use_promptlayer := false } effGenFail "abc" "summarize" =
      ([("success", JVal.bool false),
        ("error", JVal.str "OpenAI API Error: boom"),
        ("task", JVal.str "summarize"), ("input", JVal.str "abc"),
        ("output", JVal.null)], ⟨0, 1⟩) :=
  (process_text_never_raises { use_promptlayer := false } effGenFail
    "abc" "summarize"
    (summarize { use_promptlayer := false } effGenFail)
    "OpenAI API Error: boom" ⟨0, 1⟩ rfl rfl).1

/-- C4: with Promptlayer configured, when the remote fetch raises any
failure, `get_prompt_template` falls back unconditionally to the local
template of the (valid) task with the text substituted — resolution
succeeds, and the remote failure never reaches the caller. -/
theorem template_fallback_unconditional (eff : Effects)
    (task text : String) (template : Template) (msg : String)
    (hvalid : fallback_prompts task = some template)
    (hfetch : eff.remoteFetch ("text_processor_" ++ task) = Except.error msg) :
    get_prompt_template { use_promptlayer := true } eff task text =
      (Except.ok (template.format text), ⟨1, 0⟩) := by
  unfold get_prompt_template
  rw [hfetch, hvalid]
  rfl

/-- C4 witness: a refused connection on the remote fetch still resolves
`classify` to the local template applied to the text. -/
theorem template_fallback_unconditional_witness :
    get_prompt_template { use_promptlayer := true } effFetchFail
      "classify" "x" =
      (Except.ok (classifyTemplate.format "x"), ⟨1, 0⟩) :=
  template_fallback_unconditional effFetchFail "classify" "x"
    classifyTemplate "connection refused" rfl rfl

/-- C5: any failure of the downstream generation call is caught and
re-raised as a single exception whose message is the original message
behind a fixed prelude (so it contains the original message), and every
invocation of `_call_openai_api` performs exactly one generation round
trip and no template fetch. -/
theorem generation_failure_wrapped (p : WebTextProcessor) (eff : Effects)
    (prompt : String) (prompt_name : Option String) (msg : String)
    (h : eff.genCall (builtRequest p prompt prompt_name) = Except.error msg) :
    call_openai_api p eff prompt prompt_name =
      (Except.error ("OpenAI API Error: " ++ msg), ⟨0, 1⟩) ∧
    containsSubstr ("OpenAI API Error: " ++ msg) msg ∧
    (∀ eff2 : Effects, (call_openai_api p eff2 prompt prompt_name).2 = ⟨0, 1⟩) := by
  refine ⟨?_, ?_, ?_⟩
  · unfold call_openai_api
    rw [h]
  · exact ⟨("OpenAI API Error: ").data, [],
      by simp [String.data_append]⟩
  · intro eff2
    unfold call_openai_api
    cases eff2.genCall (builtRequest p prompt prompt_name) with
    | error e => rfl
    | ok response =>
        rcases response with ⟨choices⟩
        cases choices <;> rfl

/-- C5 witness: a transport error `"boom"` surfaces as the single wrapped
exception after exactly one round trip. -/
theorem generation_failure_wrapped_witness :
    call_openai_api { use_promptlayer := false } effGenFail "p"
      (some "text_processor_summarize") =
      (Except.error ("OpenAI API Error: " ++ "boom"), ⟨0, 1⟩) :=
  (generation_failure_wrapped { use_promptlayer := false } effGenFail "p"
    (some "text_processor_summarize") "boom" rfl).1

/-- C6: on a successful generation response, `_call_openai_api` returns
the content of the first completion choice with leading and trailing
whitespace stripped. -/
theorem generation_success_first_choice_stripped (p : WebTextProcessor)
    (eff : Effects) (prompt : String) (prompt_name : Option String)
    (response : ChatResponse) (choice : Choice) (rest : List Choice)
    (hok : eff.genCall (builtRequest p prompt prompt_name) = Except.ok response)
    (hchoices : response.choices = choice :: rest) :
    call_openai_api p eff prompt prompt_name =
      (Except.ok (pyStrip choice.message.content), ⟨0, 1⟩) := by
  unfold call_openai_api
  rw [hok]
  dsimp only
  rw [hchoices]

/-- C6 witness: the padded completion `"  Fact. This is observable.  "`
comes back stripped. -/
theorem generation_success_first_choice_stripped_witness :
    call_openai_api { use_promptlayer := false } effGenOk "p"
      (some "text_processor_classify") =
      (Except.ok "Fact. This is observable.", ⟨0, 1⟩) := by
  rw [generation_success_first_choice_stripped { use_promptlayer := false }
    effGenOk "p" (some "text_processor_classify")
    ⟨[⟨⟨"assistant", "  Fact. This is observable.  "⟩⟩]⟩
    ⟨⟨"assistant", "  Fact. This is observable.  "⟩⟩ [] rfl rfl]
  rfl

/-- C7: with no remote template source configured, `get_prompt_template`
is a pure function of the task and text: its result does not depend on the
external services at all (so two calls return byte-identical strings), and
it performs no network call. -/
theorem resolve_pure_without_remote (eff eff2 : Effects)
    (task text : String) :
    get_prompt_template { use_promptlayer := false } eff task text =
      get_prompt_template { use_promptlayer := false } eff2 task text ∧
    (get_prompt_template { use_promptlayer := false } eff task text).2 =
      ⟨0, 0⟩ := by
  unfold get_prompt_template
  cases fallback_prompts task <;> exact ⟨rfl, rfl⟩

/-- C8 counterexample: when construction fails (no `OPENAI_API_KEY`), the
emitted envelope has `output = null` — it is the `task` field, not
`output`, that carries the task given as constructor argument, refuting "`output`
populated from the task given as constructor argument". -/
theorem config_failure_output_is_null :
    getField (mainRun env0 effGenOk "classify" "hello").envelope "output" =
      some JVal.null ∧
    getField (mainRun env0 effGenOk "classify" "hello").envelope "output" ≠
      some (JVal.str "classify") ∧
    getField (mainRun env0 effGenOk "classify" "hello").envelope "task" =
      some (JVal.str "classify") ∧
    (mainRun env0 effGenOk "classify" "hello").exitCode = 1 := by
  decide

/-- C8 (amended): the exit status is 0 exactly when the emitted envelope
has `success=true`; when construction of the processor fails (missing
credential), the program emits a failure envelope whose `task` field (not
`output`, which is null) is populated from the
task, with `error` describing the configuration failure, and exits 1. -/
theorem exit_status_matches_success (env : Env) (eff : Effects)
    (t s : String) :
    ((mainRun env eff t s).exitCode = 0 ↔
      envelopeSuccess (mainRun env eff t s).envelope = true) ∧
    (getenvTruthy env.openai_api_key = false →
      (mainRun env eff t s).envelope =
        [("success", JVal.bool false),
         ("error", JVal.str "OPENAI_API_KEY not found in environment variables."),
         ("task", JVal.str t), ("input", JVal.str s),
         ("output", JVal.null)] ∧
      (mainRun env eff t s).exitCode = 1) := by
  unfold mainRun WebTextProcessor.init
  cases hkey : getenvTruthy env.openai_api_key with
  | false =>
      refine ⟨?_, fun _ => ⟨rfl, rfl⟩⟩
      dsimp only [envelopeSuccess, getField]
      simp
  | true =>
      refine ⟨?_, fun hc => absurd hc.symm Bool.false_ne_true⟩
      dsimp only
      cases hb : envelopeSuccess
          (process_text { use_promptlayer := getenvTruthy env.promptlayer_api_key }
            eff s t).1 with
      | false => simp [hb]
      | true => simp [hb]

/-- C8 witness: with no credentials at all, the run exits 1 and emits the
configuration-failure envelope with the task argument in `task`. -/
theorem exit_status_matches_success_witness :
    (mainRun env0 effGenOk "classify" "hi").envelope =
      [("success", JVal.bool false),
       ("error", JVal.str "OPENAI_API_KEY not found in environment variables."),
       ("task", JVal.str "classify"), ("input", JVal.str "hi"),
       ("output", JVal.null)] ∧
    (mainRun env0 effGenOk "classify" "hi").exitCode = 1 :=
  (exit_status_matches_success env0 effGenOk "classify" "hi").2 (by decide)

/-- C9: without a truthy `OPENAI_API_KEY`, constructing the processor
fails with the configuration error before any task logic can run, and a
whole program run in such an environment performs zero network calls. -/
theorem missing_credential_fails_construction (env : Env) (eff : Effects)
    (t s : String) (h : getenvTruthy env.openai_api_key = false) :
    WebTextProcessor.init env =
      Except.error "OPENAI_API_KEY not found in environment variables." ∧
    (mainRun env eff t s).net = ⟨0, 0⟩ := by
  constructor
  · unfold WebTextProcessor.init
    rw [h]
    rfl
  · unfold mainRun WebTextProcessor.init
    rw [h]
    rfl

/-- C9 witness: the empty environment fails construction and makes no
network call. -/
theorem missing_credential_fails_construction_witness :
    WebTextProcessor.init env0 =
      Except.error "OPENAI_API_KEY not found in environment variables." ∧
    (mainRun env0 effGenOk "classify" "hi").net = ⟨0, 0⟩ :=
  missing_credential_fails_construction env0 effGenOk "classify" "hi" rfl

/-- C10: on every return path of `process_text` — invalid task, success
and caught failure — the `task` field of the envelope is the task argument
verbatim and its `input` field is the text argument verbatim. -/
theorem envelope_preserves_task_and_input (p : WebTextProcessor)
    (eff : Effects) (s t : String) :
    getField (process_text p eff s t).1 "task" = some (JVal.str t) ∧
    getField (process_text p eff s t).1 "input" = some (JVal.str s) := by
  rcases process_text_shape p eff s t with ⟨out, nl, hE⟩ | ⟨msg, nl, hE⟩ <;>
    rw [hE] <;> exact ⟨rfl, rfl⟩
